import Mathlib

/-!
Verification of the quotation web application.

The repository has two near-duplicate Flask entry points, src/app.py and
src/functions/_worker.py.  Both expose a CRUD store of Quotation records,
a preview handler (generate), a document-creation handler (create_files)
and two exporters (spreadsheet and PDF).  Currency values are Python
floats; we embed them as rationals, which agrees with the float
computation on every input whose decimal form is exactly representable
(all inputs used in the theorems below).  Stateful database code is
embedded as explicit state passing over a Store value.
-/

namespace QuotationApp

/-! ## Numeric rendering helpers

Models of the Python string formatting used by the exporters:
the format spec comma point two f (thousands separators, two decimal
places), and the str function on a float. -/

/-- Walks a digit list given least-significant first and inserts a comma
after every third digit, mirroring the thousands grouping of the Python
comma format spec. -/
def insertCommasAux : List Char → Nat → List Char
  | [], _ => []
  | c :: cs, k =>
    if k ≠ 0 ∧ k % 3 = 0 then ',' :: c :: insertCommasAux cs (k + 1)
    else c :: insertCommasAux cs (k + 1)

/-- Decimal digits of a natural number with thousands separators. -/
def commaGroupNat (n : Nat) : String :=
  ((insertCommasAux (Nat.toDigits 10 n).reverse 0).reverse).asString

/-- Two-digit zero-padded rendering of a value below 100. -/
def twoPad (k : Nat) : String :=
  if k < 10 then "0" ++ (Nat.toDigits 10 k).asString else (Nat.toDigits 10 k).asString

/-- Floor of a rational as an integer, via floor division of numerator by
denominator. -/
def ratFloorZ (q : ℚ) : ℤ := Int.fdiv q.num (q.den : ℤ)

/-- Round to the nearest integer with ties to even, the rounding Python
applies when formatting a value whose decimal form is exactly
representable. -/
def roundHalfEven (q : ℚ) : ℤ :=
  let n := ratFloorZ q
  let r := q - (n : ℚ)
  if r < 1 / 2 then n
  else if 1 / 2 < r then n + 1
  else if n % 2 = 0 then n else n + 1

/-- Model of the Python format spec comma point two f applied to a float:
two decimal places and thousands separators, a leading minus sign for
negative inputs.  Faithful for values whose decimal form is exactly
representable in binary floating point. -/
def pyCommaFormat (q : ℚ) : String :=
  let c := roundHalfEven (q * 100)
  let sgn := if q < 0 then "-" else ""
  let a := c.natAbs
  sgn ++ commaGroupNat (a / 100) ++ "." ++ twoPad (a % 100)

/-- Fractional decimal digits of r over d, fuel-bounded long division. -/
def fracDigits : Nat → Nat → Nat → List Char
  | 0, _, _ => []
  | _ + 1, 0, _ => []
  | fuel + 1, r, d =>
    let r10 := r * 10
    Nat.digitChar (r10 / d) :: fracDigits fuel (r10 % d) d

/-- Model of the Python str function on a float value, for values with a
finite decimal expansion: integer part, a point, then the fractional
digits (a single zero when the value is integral). -/
def pyFloatStr (q : ℚ) : String :=
  let sgn := if q < 0 then "-" else ""
  let n := q.num.natAbs
  let d := q.den
  let ip := n / d
  let r := n % d
  let fr := if r = 0 then "0" else (fracDigits 17 r d).asString
  sgn ++ (Nat.toDigits 10 ip).asString ++ "." ++ fr

/-! ## The quotation calculator

Embeds the item loops of the generate and create_files handlers.  The
HTML form submits three parallel lists (item names, quantities, prices);
we embed a form row as one zipped record, after the float parsing of
quantity and price. -/

/-- One submitted item row: name with quantity and price already parsed. -/
structure ItemRow where
  name : String
  quantity : ℚ
  price : ℚ
  deriving Repr, DecidableEq

/-- An item as built by the handlers: the source row plus the derived
amount. -/
structure ComputedItem where
  name : String
  quantity : ℚ
  price : ℚ
  amount : ℚ
  deriving Repr, DecidableEq

/-- The item loop of the generate handler in src/app.py (lines 166-173):
rows whose name is the empty string (falsy in Python) are skipped;
otherwise amount = quantity * price is appended to the item list and
added to the running total. -/
def generateLoop : List ItemRow → List ComputedItem × ℚ → List ComputedItem × ℚ
  | [], acc => acc
  | r :: rs, (its, tot) =>
    if r.name = "" then generateLoop rs (its, tot)
    else
      generateLoop rs
        (its ++ [⟨r.name, r.quantity, r.price, r.quantity * r.price⟩],
         tot + r.quantity * r.price)

/-- Items and total_amount as computed by the generate handler of
src/app.py, starting from the empty item list and total 0. -/
def generateCompute (rows : List ItemRow) : List ComputedItem × ℚ :=
  generateLoop rows ([], 0)

/-- balance as computed by the generate handler of src/app.py (line 175):
total_amount minus received. -/
def generateBalance (rows : List ItemRow) (received : ℚ) : ℚ :=
  (generateCompute rows).2 - received

/-- The item loop of the create_files handler in src/app.py (lines
199-210), textually duplicated from the generate handler. -/
def createFilesLoop : List ItemRow → List ComputedItem × ℚ → List ComputedItem × ℚ
  | [], acc => acc
  | r :: rs, (its, tot) =>
    if r.name = "" then createFilesLoop rs (its, tot)
    else
      createFilesLoop rs
        (its ++ [⟨r.name, r.quantity, r.price, r.quantity * r.price⟩],
         tot + r.quantity * r.price)

/-- Items and total_amount as computed by the create_files handler of
src/app.py. -/
def createFilesCompute (rows : List ItemRow) : List ComputedItem × ℚ :=
  createFilesLoop rows ([], 0)

/-- balance as computed by the create_files handler of src/app.py
(line 208). -/
def createFilesBalance (rows : List ItemRow) (received : ℚ) : ℚ :=
  (createFilesCompute rows).2 - received

/-- The spec predicate on items: rows with a non-empty name, each with its
derived amount.  This definition follows the words of the spec and is
compared against the handler loops. -/
def specItems (rows : List ItemRow) : List ComputedItem :=
  (rows.filter (fun r => r.name ≠ "")).map
    (fun r => ⟨r.name, r.quantity, r.price, r.quantity * r.price⟩)

/-- The spec total: sum of quantity times price over rows with a non-empty
name.  This definition follows the words of the spec. -/
def specTotal (rows : List ItemRow) : ℚ :=
  ((rows.filter (fun r => r.name ≠ "")).map (fun r => r.quantity * r.price)).sum

/-- The example input of the spec: Widget 2 at 10.0, an empty-name row 5
at 3.0, Gadget 1 at 25.0. -/
def exampleRows : List ItemRow :=
  [⟨"Widget", 2, 10⟩, ⟨"", 5, 3⟩, ⟨"Gadget", 1, 25⟩]

lemma generateLoop_spec (rows : List ItemRow) :
    ∀ (its : List ComputedItem) (tot : ℚ),
      generateLoop rows (its, tot) = (its ++ specItems rows, tot + specTotal rows) := by
  induction rows with
  | nil => intro its tot; simp [generateLoop, specItems, specTotal]
  | cons r rs ih =>
    intro its tot
    by_cases h : r.name = ""
    · simp [generateLoop, h, ih, specItems, specTotal]
    · simp [generateLoop, h, ih, specItems, specTotal, add_assoc]

lemma createFilesLoop_eq_generateLoop (rows : List ItemRow) :
    ∀ acc, createFilesLoop rows acc = generateLoop rows acc := by
  induction rows with
  | nil => intro acc; rfl
  | cons r rs ih =>
    intro acc
    cases acc with
    | mk its tot =>
      by_cases h : r.name = "" <;> simp [createFilesLoop, generateLoop, h, ih]

lemma generateCompute_fst (rows : List ItemRow) :
    (generateCompute rows).1 = specItems rows := by
  simp [generateCompute, generateLoop_spec]

lemma generateCompute_snd (rows : List ItemRow) :
    (generateCompute rows).2 = specTotal rows := by
  simp [generateCompute, generateLoop_spec]

lemma createFilesCompute_eq (rows : List ItemRow) :
    createFilesCompute rows = generateCompute rows := by
  simp [createFilesCompute, generateCompute, createFilesLoop_eq_generateLoop]

/-! ## The document exporters

A rendered document is embedded as the cell values the exporter writes:
the item table rows, and the three cells of the totals block.  A cell
holds either a raw numeric value (a Python float written as such) or a
string. -/

/-- A written cell value: a raw number or a string. -/
inductive CellVal where
  | num (q : ℚ)
  | str (s : String)
  deriving Repr, DecidableEq

/-- The cells an exporter writes that carry quotation amounts: the item
table rows and the totals block (total, received, balance).  Styling,
merged header cells and label cells are not modelled. -/
structure RenderedDoc where
  itemCells : List (List CellVal)
  totalCell : CellVal
  receivedCell : CellVal
  balanceCell : CellVal
  deriving Repr, DecidableEq

/-- generate_excel of src/app.py: each item row writes name, quantity,
price, amount as raw cell values (lines 280-287); the totals block writes
total_amount, received and balance raw (lines 289-301). -/
def appGenerateExcel (items : List ComputedItem) (total received balance : ℚ) :
    RenderedDoc :=
  { itemCells := items.map
      (fun it => [CellVal.str it.name, CellVal.num it.quantity,
                  CellVal.num it.price, CellVal.num it.amount])
    totalCell := CellVal.num total
    receivedCell := CellVal.num received
    balanceCell := CellVal.num balance }

/-- generate_pdf of src/app.py: item_data rows hold name, quantity, price,
amount raw (lines 356-358); total_data holds total_amount, received and
balance raw (lines 371-375). -/
def appGeneratePdf (items : List ComputedItem) (total received balance : ℚ) :
    RenderedDoc :=
  { itemCells := items.map
      (fun it => [CellVal.str it.name, CellVal.num it.quantity,
                  CellVal.num it.price, CellVal.num it.amount])
    totalCell := CellVal.num total
    receivedCell := CellVal.num received
    balanceCell := CellVal.num balance }

/-- The item loop of create_files in src/functions/_worker.py (lines
204-211): rows with an empty name are skipped; items_data rows hold the
name, the raw quantity, and the price and amount formatted with the comma
point two f spec; the total accumulates quantity * price. -/
def workerLoop : List ItemRow → List (List CellVal) × ℚ → List (List CellVal) × ℚ
  | [], acc => acc
  | r :: rs, (its, tot) =>
    if r.name = "" then workerLoop rs (its, tot)
    else
      workerLoop rs
        (its ++ [[CellVal.str r.name, CellVal.num r.quantity,
                  CellVal.str (pyCommaFormat r.price),
                  CellVal.str (pyCommaFormat (r.quantity * r.price))]],
         tot + r.quantity * r.price)

/-- items_data and total_amount as computed by create_files of
src/functions/_worker.py. -/
def workerCompute (rows : List ItemRow) : List (List CellVal) × ℚ :=
  workerLoop rows ([], 0)

/-- The Excel output of create_files in src/functions/_worker.py: item
rows are appended as computed in items_data (line 274); the summary block
writes the total formatted, the received amount formatted inside
parentheses, and the balance formatted (lines 276-284). -/
def workerExcelDoc (rows : List ItemRow) (received : ℚ) : RenderedDoc :=
  let c := workerCompute rows
  { itemCells := c.1
    totalCell := CellVal.str (pyCommaFormat c.2)
    receivedCell := CellVal.str ("(" ++ pyCommaFormat received ++ ")")
    balanceCell := CellVal.str (pyCommaFormat (c.2 - received)) }

/-- Conversion a worker PDF item cell undergoes: every cell of items_data
is passed through the Python str function before being placed in a
Paragraph, so raw numbers become decimal strings and strings are kept. -/
def pyStrOfCell : CellVal → CellVal
  | CellVal.num q => CellVal.str (pyFloatStr q)
  | CellVal.str s => CellVal.str s

/-- The PDF output of create_files in src/functions/_worker.py: item rows
are the items_data rows with every cell passed through str (line 330);
the summary block writes the same three strings as the Excel output
(lines 347-351). -/
def workerPdfDoc (rows : List ItemRow) (received : ℚ) : RenderedDoc :=
  let c := workerCompute rows
  { itemCells := c.1.map (fun row => row.map pyStrOfCell)
    totalCell := CellVal.str (pyCommaFormat c.2)
    receivedCell := CellVal.str ("(" ++ pyCommaFormat received ++ ")")
    balanceCell := CellVal.str (pyCommaFormat (c.2 - received)) }

/-- The formatting property claim C7 asserts of the totals block of a
rendered document: each of the three cells is the string produced by the
two-decimal thousands-separator format of its value. -/
def totalsFormatted (doc : RenderedDoc) (total received balance : ℚ) : Prop :=
  doc.totalCell = CellVal.str (pyCommaFormat total)
  ∧ doc.receivedCell = CellVal.str (pyCommaFormat received)
  ∧ doc.balanceCell = CellVal.str (pyCommaFormat balance)

/-! ## The record store

Embeds the Quotation table and the api handlers of src/app.py (identical
in src/functions/_worker.py).  A Store holds the rows and the next
auto-increment primary key the database would assign on insert. -/

/-- A stored Quotation row (the columns of the Quotation model, lines
48-60 of src/app.py).  Nullable columns are Options; items holds the
serialized item list as text. -/
structure QuotationRec where
  id : Nat
  company_name : Option String
  company_address : Option String
  company_phone : Option String
  company_email : Option String
  client_name : Option String
  client_address : Option String
  quotation_no : Option String
  date : Option String
  items : String
  received : Option ℚ
  deposit_info : Option String
  deriving Repr, DecidableEq

/-- The JSON body of a save request: an optional id and the field values
the handler reads with data.get (absent keys give none).  itemsJson
stands for json.dumps of the submitted item list; the JSON serialization
itself is not modelled, only the resulting text. -/
structure SaveReq where
  id : Option Nat
  company_name : Option String
  company_address : Option String
  company_phone : Option String
  company_email : Option String
  client_name : Option String
  client_address : Option String
  quotation_no : Option String
  date : Option String
  received : Option ℚ
  deposit_info : Option String
  itemsJson : String
  deriving Repr, DecidableEq

/-- The record store: the table rows and the next primary key value. -/
structure Store where
  rows : List QuotationRec
  nextId : Nat
  deriving Repr, DecidableEq

/-- Response of the save handler: the success flag, the id field of the
JSON body when present, and the HTTP status. -/
structure SaveResp where
  success : Bool
  id : Option Nat
  status : Nat
  deriving Repr, DecidableEq

/-- Response of the delete handler: the success flag and the HTTP
status. -/
structure DeleteResp where
  success : Bool
  status : Nat
  deriving Repr, DecidableEq

/-- Python truthiness of the id value read from the JSON body: None and 0
are falsy, every other number is truthy. -/
def pyTruthyId : Option Nat → Bool
  | none => false
  | some n => n != 0

/-- The field assignments of save_quotation (lines 109-119 of
src/app.py): every column except the primary key is overwritten with the
request value. -/
def setFields (q : QuotationRec) (d : SaveReq) : QuotationRec :=
  { q with
    company_name := d.company_name
    company_address := d.company_address
    company_phone := d.company_phone
    company_email := d.company_email
    client_name := d.client_name
    client_address := d.client_address
    quotation_no := d.quotation_no
    date := d.date
    received := d.received
    deposit_info := d.deposit_info
    items := d.itemsJson }

/-- A freshly constructed Quotation row: all columns unset, then
assigned from the request, with the primary key the database assigns on
commit. -/
def newRecord (newId : Nat) (d : SaveReq) : QuotationRec :=
  setFields
    { id := newId, company_name := none, company_address := none,
      company_phone := none, company_email := none, client_name := none,
      client_address := none, quotation_no := none, date := none,
      items := "", received := none, deposit_info := none } d

/-- save_quotation of src/app.py (lines 94-126): when the id is truthy
the row with that primary key is fetched (404 when absent) and its fields
overwritten; otherwise a new row is built, assigned and added.  Either
way the response carries the id of the committed row. -/
def save_quotation (s : Store) (d : SaveReq) : SaveResp × Store :=
  if pyTruthyId d.id then
    let qid := d.id.getD 0
    match s.rows.find? (fun r => r.id == qid) with
    | none => ({ success := false, id := none, status := 404 }, s)
    | some _ =>
      ({ success := true, id := some qid, status := 200 },
       { s with rows := s.rows.map (fun r => if r.id == qid then setFields r d else r) })
  else
    ({ success := true, id := some s.nextId, status := 200 },
     { rows := s.rows ++ [newRecord s.nextId d], nextId := s.nextId + 1 })

/-- get_quotation of src/app.py (lines 128-133): fetch by primary key,
none when absent. -/
def get_quotation (s : Store) (qid : Nat) : Option QuotationRec :=
  s.rows.find? (fun r => r.id == qid)

/-- delete_quotation of src/app.py (lines 135-142): the row with the
given primary key is removed when present, otherwise a 404 error is
returned and the store is untouched. -/
def delete_quotation (s : Store) (qid : Nat) : DeleteResp × Store :=
  match s.rows.find? (fun r => r.id == qid) with
  | some _ =>
    ({ success := true, status := 200 },
     { s with rows := s.rows.filter (fun r => r.id != qid) })
  | none => ({ success := false, status := 404 }, s)

/-! ## Listing order

get_quotations orders by the date column descending.  The date column is
free text; the database compares text bytewise, which on UTF-8 agrees
with code point order, and sorts NULL below every string, hence last in
descending order. -/

/-- Code point comparison of character lists: lexicographic, shorter
list first on a tie. -/
def charListLe : List Char → List Char → Bool
  | [], _ => true
  | _ :: _, [] => false
  | a :: as, b :: bs =>
    if a.toNat < b.toNat then true
    else if b.toNat < a.toNat then false
    else charListLe as bs

/-- Bytewise text comparison the database applies to the date column. -/
def strLe (a b : String) : Bool := charListLe a.toList b.toList

/-- Column comparison including NULL: NULL sorts below every string. -/
def optStrLe : Option String → Option String → Bool
  | none, _ => true
  | some _, none => false
  | some a, some b => strLe a b

/-- The sort relation of the descending listing: a row comes before
another when its date is greater or equal. -/
def recBefore (a b : QuotationRec) : Bool := optStrLe b.date a.date

/-- get_quotations of src/app.py (lines 89-92): all rows ordered by date
descending. -/
def get_quotations (s : Store) : List QuotationRec :=
  s.rows.mergeSort recBefore

/-! ## Parsing of the received field -/

/-- Digit list to natural number, most significant first. -/
def digitsToNat (cs : List Char) : Nat :=
  cs.foldl (fun a c => a * 10 + (c.toNat - 48)) 0

/-- Surrounding whitespace removal the Python float constructor applies
to its argument. -/
def pyStrip (cs : List Char) : List Char :=
  ((cs.dropWhile fun c => c.isWhitespace).reverse.dropWhile fun c => c.isWhitespace).reverse

/-- Model of the Python float constructor on a string, for plain decimal
literals: optional surrounding whitespace, optional sign, digits with an
optional decimal point.  Exponent and special forms are not modelled;
none stands for the ValueError Python raises. -/
def pyFloat (s : String) : Option ℚ :=
  let cs := pyStrip s.toList
  let sgn : ℚ × List Char :=
    match cs with
    | '-' :: t => (-1, t)
    | '+' :: t => (1, t)
    | t => (1, t)
  let ip := sgn.2.takeWhile Char.isDigit
  let rest := sgn.2.dropWhile Char.isDigit
  match rest with
  | [] => if ip = [] then none else some (sgn.1 * digitsToNat ip)
  | '.' :: fr =>
    if fr.all Char.isDigit ∧ (ip ≠ [] ∨ fr ≠ []) then
      some (sgn.1 * ((digitsToNat ip : ℚ) + (digitsToNat fr : ℚ) / 10 ^ fr.length))
    else none
  | _ => none

/-- The received form field expression shared by generate and
create_files in src/app.py (lines 157 and 192) and by create_files in
src/functions/_worker.py (line 196): the form value defaults to the
string zero when the key is absent, and the Python or-expression replaces
an empty (falsy) string by the string zero before float parsing. -/
def parseReceivedField (field : Option String) : Option ℚ :=
  let g := field.getD "0"
  pyFloat (if g = "" then "0" else g)

/-! ## Helper lemmas -/

lemma charListLe_trans : ∀ as bs cs, charListLe as bs = true → charListLe bs cs = true →
    charListLe as cs = true := by
  intro as
  induction as with
  | nil => intro bs cs _ _; rfl
  | cons a as ih =>
    intro bs cs hab hbc
    cases bs with
    | nil => simp [charListLe] at hab
    | cons b bs =>
      cases cs with
      | nil => simp [charListLe] at hbc
      | cons c cs =>
        simp only [charListLe] at hab hbc ⊢
        split_ifs at hab hbc ⊢ <;>
          first
            | rfl
            | omega
            | exact ih _ _ hab hbc

lemma charListLe_total : ∀ as bs, (charListLe as bs || charListLe bs as) = true := by
  intro as
  induction as with
  | nil => intro bs; simp [charListLe]
  | cons a as ih =>
    intro bs
    cases bs with
    | nil => simp [charListLe]
    | cons b bs =>
      simp only [charListLe]
      by_cases h1 : a.toNat < b.toNat
      · simp [h1]
      · by_cases h2 : b.toNat < a.toNat
        · simp [h1, h2]
        · simp [h1, h2, ih]

lemma optStrLe_trans : ∀ a b c, optStrLe a b = true → optStrLe b c = true →
    optStrLe a c = true := by
  intro a b c hab hbc
  cases a with
  | none => rfl
  | some x =>
    cases b with
    | none => simp [optStrLe] at hab
    | some y =>
      cases c with
      | none => simp [optStrLe] at hbc
      | some z => exact charListLe_trans _ _ _ hab hbc

lemma optStrLe_total : ∀ a b, (optStrLe a b || optStrLe b a) = true := by
  intro a b
  cases a with
  | none => rfl
  | some x =>
    cases b with
    | none => rfl
    | some y => exact charListLe_total _ _

lemma recBefore_trans : ∀ a b c : QuotationRec, recBefore a b = true →
    recBefore b c = true → recBefore a c = true := by
  intro a b c hab hbc
  exact optStrLe_trans _ _ _ hbc hab

lemma recBefore_total : ∀ a b : QuotationRec, (recBefore a b || recBefore b a) = true := by
  intro a b
  exact optStrLe_total b.date a.date

lemma setFields_id (q : QuotationRec) (d : SaveReq) : (setFields q d).id = q.id := rfl

lemma find?_map_update (d : SaveReq) (qid : Nat) :
    ∀ (l : List QuotationRec) (old : QuotationRec),
      l.find? (fun r => r.id == qid) = some old →
      (l.map (fun r => if r.id == qid then setFields r d else r)).find?
        (fun r => r.id == qid) = some (setFields old d) := by
  intro l
  induction l with
  | nil => intro old h; simp at h
  | cons r rs ih =>
    intro old h
    by_cases hr : (r.id == qid) = true
    · rw [List.find?_cons_of_pos (p := fun x => x.id == qid) rs hr] at h
      obtain rfl : r = old := Option.some.inj h
      simp only [List.map_cons, if_pos hr]
      exact List.find?_cons_of_pos _ (by rw [setFields_id]; exact hr)
    · rw [List.find?_cons_of_neg (p := fun x => x.id == qid) rs hr] at h
      simp only [List.map_cons, if_neg hr]
      rw [List.find?_cons_of_neg (p := fun x : QuotationRec => x.id == qid) _ hr]
      exact ih old h

/-- Shape of a worker items_data row: the name as a string cell, the raw
quantity, then the formatted price and formatted amount. -/
def goodRow (c : List CellVal) : Prop :=
  ∃ nm q p, c = [CellVal.str nm, CellVal.num q, CellVal.str (pyCommaFormat p),
                 CellVal.str (pyCommaFormat (q * p))]

lemma workerLoop_shape : ∀ (rows : List ItemRow) (its : List (List CellVal)) (tot : ℚ),
    (∀ c ∈ its, goodRow c) → ∀ c ∈ (workerLoop rows (its, tot)).1, goodRow c := by
  intro rows
  induction rows with
  | nil => intro its tot h c hc; exact h c hc
  | cons r rs ih =>
    intro its tot h c hc
    by_cases hr : r.name = ""
    · rw [show workerLoop (r :: rs) (its, tot) = workerLoop rs (its, tot) from by
        simp [workerLoop, hr]] at hc
      exact ih its tot h c hc
    · rw [show workerLoop (r :: rs) (its, tot) =
          workerLoop rs
            (its ++ [[CellVal.str r.name, CellVal.num r.quantity,
                      CellVal.str (pyCommaFormat r.price),
                      CellVal.str (pyCommaFormat (r.quantity * r.price))]],
             tot + r.quantity * r.price) from by simp [workerLoop, hr]] at hc
      refine ih _ _ ?_ c hc
      intro c2 hc2
      rw [List.mem_append] at hc2
      cases hc2 with
      | inl h2 => exact h c2 h2
      | inr h2 =>
        rw [List.mem_singleton] at h2
        exact ⟨r.name, r.quantity, r.price, h2⟩

lemma workerCompute_shape (rows : List ItemRow) :
    ∀ c ∈ (workerCompute rows).1, goodRow c := by
  refine workerLoop_shape rows [] 0 ?_
  intro c hc
  simp at hc

lemma workerLoop_snd_eq : ∀ (rows : List ItemRow) (its : List (List CellVal))
    (its2 : List ComputedItem) (tot : ℚ),
    (workerLoop rows (its, tot)).2 = (generateLoop rows (its2, tot)).2 := by
  intro rows
  induction rows with
  | nil => intro its its2 tot; rfl
  | cons r rs ih =>
    intro its its2 tot
    by_cases hr : r.name = ""
    · rw [show workerLoop (r :: rs) (its, tot) = workerLoop rs (its, tot) from by
          simp [workerLoop, hr],
        show generateLoop (r :: rs) (its2, tot) = generateLoop rs (its2, tot) from by
          simp [generateLoop, hr]]
      exact ih its its2 tot
    · rw [show workerLoop (r :: rs) (its, tot) =
          workerLoop rs
            (its ++ [[CellVal.str r.name, CellVal.num r.quantity,
                      CellVal.str (pyCommaFormat r.price),
                      CellVal.str (pyCommaFormat (r.quantity * r.price))]],
             tot + r.quantity * r.price) from by simp [workerLoop, hr],
        show generateLoop (r :: rs) (its2, tot) =
          generateLoop rs
            (its2 ++ [⟨r.name, r.quantity, r.price, r.quantity * r.price⟩],
             tot + r.quantity * r.price) from by simp [generateLoop, hr]]
      exact ih _ _ _

lemma workerCompute_snd (rows : List ItemRow) :
    (workerCompute rows).2 = (generateCompute rows).2 := by
  exact workerLoop_snd_eq rows [] [] 0

/-! ## The claims -/

/-- C1: for every form submission the computed total_amount is the sum of
quantity times price over exactly the rows with a non-empty name, and only
those rows appear in the computed item list; this holds for the handler of
src/app.py and for the worker loop.  On the spec example (Widget 2 at 10,
an empty-name row, Gadget 1 at 25) with received 20, the total is 45, the
balance 25, and the empty-name row is absent from the items. -/
theorem total_amount_sums_nonempty_rows :
    (∀ rows : List ItemRow,
        (generateCompute rows).2 = specTotal rows
        ∧ (generateCompute rows).1 = specItems rows
        ∧ (workerCompute rows).2 = specTotal rows)
    ∧ (generateCompute exampleRows).2 = 45
    ∧ generateBalance exampleRows 20 = 25
    ∧ (generateCompute exampleRows).1 =
        [⟨"Widget", 2, 10, 20⟩, ⟨"Gadget", 1, 25, 25⟩] := by
  refine ⟨fun rows => ⟨generateCompute_snd rows, generateCompute_fst rows, ?_⟩, ?_, ?_, ?_⟩
  · rw [workerCompute_snd]
    exact generateCompute_snd rows
  · simp [generateCompute, generateLoop, exampleRows]
    norm_num
  · simp [generateBalance, generateCompute, generateLoop, exampleRows]
    norm_num
  · simp [generateCompute, generateLoop, exampleRows]
    norm_num

/-- C2: the computed balance is total_amount minus received with no
clamping, in the preview handler and in create_files alike; when received
exceeds the total the balance is negative. -/
theorem balance_is_total_minus_received :
    ∀ (rows : List ItemRow) (received : ℚ),
      generateBalance rows received = (generateCompute rows).2 - received
      ∧ createFilesBalance rows received = (createFilesCompute rows).2 - received
      ∧ ((generateCompute rows).2 < received → generateBalance rows received < 0) := by
  intro rows received
  refine ⟨rfl, rfl, fun h => ?_⟩
  rw [generateBalance]
  exact sub_neg.mpr h

/-- C2 witness: on the example rows (total 45) with received 50 the
balance is negative. -/
theorem balance_is_total_minus_received_witness :
    generateBalance exampleRows 50 < 0 :=
  (balance_is_total_minus_received exampleRows 50).2.2 (by
    simp [generateCompute, generateLoop, exampleRows]
    norm_num)

/-- C3: for the same form input, the totals computed by the preview
handler and the total, received and balance cells written into the
generated spreadsheet and PDF of src/app.py all agree. -/
theorem preview_excel_pdf_totals_agree :
    ∀ (rows : List ItemRow) (received : ℚ),
      (createFilesCompute rows).2 = (generateCompute rows).2
      ∧ (appGenerateExcel (createFilesCompute rows).1 (createFilesCompute rows).2
            received (createFilesBalance rows received)).totalCell
          = CellVal.num (generateCompute rows).2
      ∧ (appGenerateExcel (createFilesCompute rows).1 (createFilesCompute rows).2
            received (createFilesBalance rows received)).receivedCell
          = CellVal.num received
      ∧ (appGenerateExcel (createFilesCompute rows).1 (createFilesCompute rows).2
            received (createFilesBalance rows received)).balanceCell
          = CellVal.num (generateBalance rows received)
      ∧ (appGeneratePdf (createFilesCompute rows).1 (createFilesCompute rows).2
            received (createFilesBalance rows received)).totalCell
          = CellVal.num (generateCompute rows).2
      ∧ (appGeneratePdf (createFilesCompute rows).1 (createFilesCompute rows).2
            received (createFilesBalance rows received)).receivedCell
          = CellVal.num received
      ∧ (appGeneratePdf (createFilesCompute rows).1 (createFilesCompute rows).2
            received (createFilesBalance rows received)).balanceCell
          = CellVal.num (generateBalance rows received) := by
  intro rows received
  have h := createFilesCompute_eq rows
  refine ⟨by rw [h], ?_, rfl, ?_, ?_, rfl, ?_⟩ <;>
    simp [appGenerateExcel, appGeneratePdf, createFilesBalance, generateBalance, h]

/-- C10: the received form field expression of both handlers in both
variants parses an absent field and an empty-string field to zero rather
than failing. -/
theorem received_absent_or_empty_defaults_zero :
    parseReceivedField none = some 0 ∧ parseReceivedField (some "") = some 0 := by
  have h0 : pyFloat "0" = some 0 := by
    rw [show pyFloat "0" = some ((1 : ℚ) * (digitsToNat ['0'] : ℚ)) from rfl,
        show digitsToNat ['0'] = 0 from rfl]
    norm_num
  constructor
  · rw [show parseReceivedField none = pyFloat "0" from rfl]
    exact h0
  · rw [show parseReceivedField (some "") = pyFloat "0" from rfl]
    exact h0

/-- Concrete save request used by the witnesses. -/
def sampleReq (idv : Option Nat) : SaveReq :=
  { id := idv, company_name := some "ACME", company_address := some "1 Main Rd",
    company_phone := some "555", company_email := some "a@b.c",
    client_name := some "Bob", client_address := some "2 High Rd",
    quotation_no := some "Q1", date := some "2024-01-02",
    received := some 20, deposit_info := some "half paid", itemsJson := "[]" }

/-- A second concrete request, with different field values. -/
def sampleReq2 (idv : Option Nat) : SaveReq :=
  { id := idv, company_name := some "ACME", company_address := some "1 Main Rd",
    company_phone := some "555", company_email := some "a@b.c",
    client_name := some "Carol", client_address := some "3 Low Rd",
    quotation_no := some "Q2", date := some "2024-02-03",
    received := some 5, deposit_info := none, itemsJson := "[]" }

/-- A stored record with primary key 1. -/
def sampleRec : QuotationRec := newRecord 1 (sampleReq none)

/-- A stored record with primary key 2. -/
def sampleRec2 : QuotationRec := newRecord 2 (sampleReq2 none)

/-- A store holding records 1 and 2, next primary key 3. -/
def sampleStore : Store := { rows := [sampleRec, sampleRec2], nextId := 3 }

/-- C4: saving without an id appends one new record carrying the freshly
assigned id, which the response returns; saving with an id an existing
record has overwrites the fields of that record in place, keeps the
record count unchanged, and returns that id. -/
theorem save_upsert (s : Store) (d : SaveReq) :
    (d.id = none →
      (save_quotation s d).2.rows = s.rows ++ [newRecord s.nextId d]
      ∧ (save_quotation s d).1.id = some s.nextId
      ∧ (save_quotation s d).1.success = true
      ∧ (save_quotation s d).2.rows.length = s.rows.length + 1)
    ∧ (∀ (qid : Nat) (old : QuotationRec), d.id = some qid → qid ≠ 0 →
        s.rows.find? (fun r => r.id == qid) = some old →
        (save_quotation s d).2.rows.length = s.rows.length
        ∧ (save_quotation s d).1.id = some qid
        ∧ (save_quotation s d).1.success = true
        ∧ (save_quotation s d).2.rows.find? (fun r => r.id == qid)
            = some (setFields old d)) := by
  constructor
  · intro h
    have ht : pyTruthyId d.id = false := by rw [h]; rfl
    simp [save_quotation, ht]
  · intro qid old h1 h2 h3
    have ht : pyTruthyId (some qid) = true := by simp [pyTruthyId, h2]
    have hs : save_quotation s d =
        ({ success := true, id := some qid, status := 200 },
         { s with rows := s.rows.map (fun r => if r.id == qid then setFields r d else r) }) := by
      simp [save_quotation, ht, h1, h3]
    rw [hs]
    exact ⟨by simp, rfl, rfl, find?_map_update d qid s.rows old h3⟩

/-- C4 witness: saving into the sample store without an id returns the
fresh id 3 and grows the store; saving with id 1 keeps the length at 2
and overwrites record 1. -/
theorem save_upsert_witness :
    ((save_quotation sampleStore (sampleReq2 none)).1.id = some 3
      ∧ (save_quotation sampleStore (sampleReq2 none)).2.rows.length =
          sampleStore.rows.length + 1)
    ∧ ((save_quotation sampleStore (sampleReq2 (some 1))).2.rows.length =
          sampleStore.rows.length
      ∧ (save_quotation sampleStore (sampleReq2 (some 1))).2.rows.find?
          (fun r => r.id == 1) = some (setFields sampleRec (sampleReq2 (some 1)))) :=
  ⟨⟨((save_upsert sampleStore (sampleReq2 none)).1 rfl).2.1,
    ((save_upsert sampleStore (sampleReq2 none)).1 rfl).2.2.2⟩,
   ⟨((save_upsert sampleStore (sampleReq2 (some 1))).2 1 sampleRec rfl
        (by decide) rfl).1,
    ((save_upsert sampleStore (sampleReq2 (some 1))).2 1 sampleRec rfl
        (by decide) rfl).2.2.2⟩⟩

/-- C5: deleting an id no record has returns 404 and leaves the store
unchanged; deleting an existing id removes exactly that record, which no
longer appears in listings or fetches, while every other record stays. -/
theorem delete_unknown_404_known_removes (s : Store) (qid : Nat) :
    (s.rows.find? (fun r => r.id == qid) = none →
      (delete_quotation s qid).1.status = 404
      ∧ (delete_quotation s qid).1.success = false
      ∧ (delete_quotation s qid).2 = s)
    ∧ (∀ old : QuotationRec,
        (s.rows.map (fun r => r.id)).Nodup →
        s.rows.find? (fun r => r.id == qid) = some old →
        (delete_quotation s qid).1.success = true
        ∧ old ∉ (delete_quotation s qid).2.rows
        ∧ get_quotation (delete_quotation s qid).2 qid = none
        ∧ old ∉ get_quotations (delete_quotation s qid).2
        ∧ (∀ r ∈ s.rows, r ≠ old → r ∈ (delete_quotation s qid).2.rows)
        ∧ (∀ r ∈ (delete_quotation s qid).2.rows, r ∈ s.rows)) := by
  constructor
  · intro h
    simp [delete_quotation, h]
  · intro old hnd h3
    have hid : old.id = qid := by
      have := List.find?_some h3
      simpa using this
    have hd : delete_quotation s qid =
        ({ success := true, status := 200 },
         { s with rows := s.rows.filter (fun r => r.id != qid) }) := by
      simp [delete_quotation, h3]
    rw [hd]
    have hmem : old ∈ s.rows := List.mem_of_find?_eq_some h3
    refine ⟨rfl, ?_, ?_, ?_, ?_, ?_⟩
    · intro hin
      rw [List.mem_filter] at hin
      have := hin.2
      simp [hid] at this
    · rw [get_quotation, List.find?_eq_none]
      intro x hx
      rw [List.mem_filter] at hx
      have := hx.2
      simpa using this
    · intro hin
      have hperm := List.mergeSort_perm
        (List.filter (fun r => r.id != qid) s.rows) recBefore
      have : old ∈ List.filter (fun r => r.id != qid) s.rows :=
        hperm.mem_iff.mp hin
      rw [List.mem_filter] at this
      have h2 := this.2
      simp [hid] at h2
    · intro r hr hne
      rw [List.mem_filter]
      refine ⟨hr, ?_⟩
      have : r.id ≠ qid := by
        intro he
        exact hne (List.inj_on_of_nodup_map hnd hr hmem (he.trans hid.symm))
      simpa using this
    · intro r hr
      exact List.mem_of_mem_filter hr

/-- C5 witness: in the sample store, deleting the unknown id 5 returns
404 and leaves the store intact, and deleting id 2 removes record 2. -/
theorem delete_unknown_404_known_removes_witness :
    ((delete_quotation sampleStore 5).1.status = 404
      ∧ (delete_quotation sampleStore 5).2 = sampleStore)
    ∧ sampleRec2 ∉ (delete_quotation sampleStore 2).2.rows :=
  ⟨⟨((delete_unknown_404_known_removes sampleStore 5).1 rfl).1,
    ((delete_unknown_404_known_removes sampleStore 5).1 rfl).2.2⟩,
   ((delete_unknown_404_known_removes sampleStore 2).2 sampleRec2
      (by decide) rfl).2.1⟩

/-- C6: the listing returns all stored records (a permutation of the
rows) and orders them by date descending: every adjacent pair has the
first date greater or equal to the second under the bytewise text order,
NULL dates last. -/
theorem listing_ordered_date_desc :
    ∀ s : Store,
      (get_quotations s).Perm s.rows
      ∧ List.Chain' (fun a b : QuotationRec => optStrLe b.date a.date = true)
          (get_quotations s) := by
  intro s
  constructor
  · exact List.mergeSort_perm s.rows recBefore
  · have h := @List.sorted_mergeSort QuotationRec recBefore
      recBefore_trans recBefore_total s.rows
    exact h.chain'

/-- C8: a save request whose body carries id 0 takes the create branch:
a new record with the fresh id is appended, the fresh id is returned, and
no existing record (a record with id 0 included) is looked up or
modified. -/
theorem save_zero_id_creates (s : Store) (d : SaveReq) (h : d.id = some 0) :
    (save_quotation s d).2.rows = s.rows ++ [newRecord s.nextId d]
    ∧ (save_quotation s d).1.id = some s.nextId
    ∧ (save_quotation s d).2.rows.length = s.rows.length + 1
    ∧ (save_quotation s d).2.nextId = s.nextId + 1 := by
  have ht : pyTruthyId d.id = false := by rw [h]; rfl
  simp [save_quotation, ht]

/-- A record whose primary key is 0, for the C8 witness. -/
def zeroRec : QuotationRec := newRecord 0 (sampleReq none)

/-- A store holding the id-0 record. -/
def zeroStore : Store := { rows := [zeroRec], nextId := 5 }

/-- C8 witness: saving with id 0 into a store that even holds a record
with id 0 appends a fresh record with id 5 instead of updating it. -/
theorem save_zero_id_creates_witness :
    (save_quotation zeroStore (sampleReq2 (some 0))).2.rows =
        zeroStore.rows ++ [newRecord 5 (sampleReq2 (some 0))]
    ∧ (save_quotation zeroStore (sampleReq2 (some 0))).1.id = some 5 :=
  ⟨(save_zero_id_creates zeroStore (sampleReq2 (some 0)) rfl).1,
   (save_zero_id_creates zeroStore (sampleReq2 (some 0)) rfl).2.1⟩

/-- C9: a save request with a truthy id that no record has returns a 404
not-found response and leaves the store exactly as it was. -/
theorem save_unknown_id_not_found (s : Store) (d : SaveReq) (qid : Nat)
    (h1 : d.id = some qid) (h2 : qid ≠ 0)
    (h3 : s.rows.find? (fun r => r.id == qid) = none) :
    (save_quotation s d).1.success = false
    ∧ (save_quotation s d).1.status = 404
    ∧ (save_quotation s d).2 = s := by
  have ht : pyTruthyId (some qid) = true := by simp [pyTruthyId, h2]
  simp [save_quotation, ht, h1, h3]

/-- C9 witness: saving with the unknown id 7 into the sample store fails
with 404 and the store is unchanged. -/
theorem save_unknown_id_not_found_witness :
    (save_quotation sampleStore (sampleReq2 (some 7))).1.status = 404
    ∧ (save_quotation sampleStore (sampleReq2 (some 7))).2 = sampleStore :=
  ⟨(save_unknown_id_not_found sampleStore (sampleReq2 (some 7)) 7 rfl
      (by decide) rfl).2.1,
   (save_unknown_id_not_found sampleStore (sampleReq2 (some 7)) 7 rfl
      (by decide) rfl).2.2⟩

/-- C7 counterexample: on the example input (total 45, received 20,
balance 25), the spreadsheet exporter of src/app.py does not render the
totals block with the two-decimal thousands-separator formatting the
claim asserts: it writes the raw numeric value of the total instead of
the formatted string. -/
theorem exporters_format_claim_false :
    ¬ totalsFormatted
        (appGenerateExcel (createFilesCompute exampleRows).1 45 20 25) 45 20 25 := by
  intro h
  have h1 := h.1
  rw [show (appGenerateExcel (createFilesCompute exampleRows).1 45 20 25).totalCell
      = CellVal.num 45 from rfl] at h1
  exact CellVal.noConfusion h1

/-- C7 amended: the two exporters of src/app.py write identical raw
numeric cells for price, amount, total, received and balance, with no
two-decimal or thousands-separator formatting; the two exporters of
src/functions/_worker.py write identical strings for those values, the
price, amount, total and balance in the two-decimal thousands-separator
format and the received amount as that format wrapped in parentheses. -/
theorem exporters_consistent_rendering :
    (∀ (items : List ComputedItem) (total received balance : ℚ),
        appGenerateExcel items total received balance
            = appGeneratePdf items total received balance
        ∧ (appGenerateExcel items total received balance).totalCell = CellVal.num total
        ∧ (appGenerateExcel items total received balance).receivedCell = CellVal.num received
        ∧ (appGenerateExcel items total received balance).balanceCell = CellVal.num balance)
    ∧ (∀ (rows : List ItemRow) (received : ℚ),
        (workerExcelDoc rows received).totalCell
            = CellVal.str (pyCommaFormat (workerCompute rows).2)
        ∧ (workerExcelDoc rows received).receivedCell
            = CellVal.str ("(" ++ pyCommaFormat received ++ ")")
        ∧ (workerExcelDoc rows received).balanceCell
            = CellVal.str (pyCommaFormat ((workerCompute rows).2 - received))
        ∧ (workerPdfDoc rows received).totalCell = (workerExcelDoc rows received).totalCell
        ∧ (workerPdfDoc rows received).receivedCell
            = (workerExcelDoc rows received).receivedCell
        ∧ (workerPdfDoc rows received).balanceCell
            = (workerExcelDoc rows received).balanceCell
        ∧ (∀ c ∈ (workerExcelDoc rows received).itemCells, goodRow c)
        ∧ (workerPdfDoc rows received).itemCells
            = (workerExcelDoc rows received).itemCells.map
                (fun row => row.map pyStrOfCell)) := by
  refine ⟨fun items total received balance => ⟨rfl, rfl, rfl, rfl⟩,
    fun rows received => ⟨rfl, rfl, rfl, rfl, rfl, rfl, ?_, rfl⟩⟩
  exact workerCompute_shape rows

/-- C7 amended witness: the first items_data row of the worker on the
example input has the asserted shape (name, raw quantity, formatted
price, formatted amount). -/
theorem exporters_consistent_rendering_witness :
    goodRow [CellVal.str "Widget", CellVal.num 2, CellVal.str (pyCommaFormat 10),
             CellVal.str (pyCommaFormat (2 * 10))] :=
  (exporters_consistent_rendering.2 exampleRows 20).2.2.2.2.2.2.1 _ (by
    show _ ∈ (workerCompute exampleRows).1
    rw [show (workerCompute exampleRows).1 =
        [CellVal.str "Widget", CellVal.num 2, CellVal.str (pyCommaFormat 10),
         CellVal.str (pyCommaFormat (2 * 10))] ::
        [[CellVal.str "Gadget", CellVal.num 1, CellVal.str (pyCommaFormat 25),
          CellVal.str (pyCommaFormat (1 * 25))]] from rfl]
    exact List.mem_cons_self _ _)

end QuotationApp
